import Mathlib

/-!
Verification of the Codexa frontend client (src/frontend/src/api.js and the
single-file React component src/App.jsx) against its natural-language
specification.

The component holds sixteen `useState` variables; we embed them as one
record `AppState`. Each asynchronous handler is split into its synchronous
phases: the guarded entry (`handleX`, returning the post-guard state and a
Bool flagging whether the API Client call was issued), and the two
completion continuations (`xResolve` on a fulfilled promise, `xReject` on a
rejected one). JavaScript truthiness of strings and JSON values is embedded
explicitly (`jsOrStr`, `Json.truthy`), and response bodies are embedded as
a small JSON value type.
-/

/-- A JSON value, embedding the response bodies the component stores. -/
inductive Json where
  | null : Json
  | bool : Bool → Json
  | num : Int → Json
  | str : String → Json
  | arr : List Json → Json
  | obj : List (String × Json) → Json

/-- JavaScript truthiness of a JSON value: null, false, 0 and the empty
string are falsy; arrays and objects are always truthy. -/
def Json.truthy : Json → Bool
  | .null => false
  | .bool b => b
  | .num n => n != 0
  | .str s => s != ""
  | .arr _ => true
  | .obj _ => true

/-- Lookup of an object field, first binding wins; `none` embeds the
JavaScript `undefined` produced by a missing property. -/
def lookupField (k : String) : List (String × Json) → Option Json
  | [] => none
  | (k2, v) :: rest => if k2 = k then some v else lookupField k rest

/-- Property access `j.k` on a JSON value: only objects have fields. -/
def Json.getField (j : Json) (k : String) : Option Json :=
  match j with
  | .obj fields => lookupField k fields
  | _ => none

/-- JavaScript `a || b` on strings, where the empty string (and, via our
encoding, `undefined`) is falsy. -/
def jsOrStr (a b : String) : String :=
  if a = "" then b else a

/-- JavaScript `a || b` where `a` is a possibly-undefined JSON value. -/
def jsOrJson (a : Option Json) (b : Json) : Json :=
  match a with
  | some j => if j.truthy then j else b
  | none => b

/-- A language descriptor returned by the backend:
`{key, name, editor}` (App.jsx uses `lang.key`, `lang.name`,
`lang.editor`). -/
structure Lang where
  key : String
  name : String
  editor : String
deriving DecidableEq

/-- The HTTP method of an API Client request. -/
inductive Method where
  | get : Method
  | post : Method

/-- An outbound HTTP request as built by src/frontend/src/api.js: method,
full URL, and optional JSON body. -/
structure Request where
  method : Method
  url : String
  body : Option Json

/-- The configured base address of the axios instance in api.js. -/
def baseURL : String := "http://127.0.0.1:8000/api/"

/-- api.js `generateCurriculum(topic)`: POST curriculum/ with `{topic}`. -/
def generateCurriculum (topic : String) : Request :=
  ⟨.post, baseURL ++ "curriculum/", some (.obj [("topic", .str topic)])⟩

/-- api.js `generateLesson(concept)`: POST lesson/ with `{concept}`. -/
def generateLesson (concept : String) : Request :=
  ⟨.post, baseURL ++ "lesson/", some (.obj [("concept", .str concept)])⟩

/-- api.js `getFeedback(code)`: POST feedback/ with `{code}`. -/
def getFeedback (code : String) : Request :=
  ⟨.post, baseURL ++ "feedback/", some (.obj [("code", .str code)])⟩

/-- api.js `listLanguages()`: GET execute/. -/
def listLanguages : Request :=
  ⟨.get, baseURL ++ "execute/", none⟩

/-- api.js `runCode(payload)`: POST execute/ with the given payload. -/
def runCode (payload : Json) : Request :=
  ⟨.post, baseURL ++ "execute/", some payload⟩

/-- The view state of the App component: one field per `useState` variable
holding data (lines 92-110 of App.jsx). -/
structure AppState where
  topic : String
  curriculum : Option Json
  topicLoading : Bool
  concept : String
  lesson : Option Json
  lessonLoading : Bool
  code : String
  stdin : String
  feedback : Option Json
  feedbackLoading : Bool
  languages : List Lang
  languagesLoading : Bool
  languageError : Option String
  selectedLanguage : String
  executionLoading : Bool
  executionResult : Option Json

/-- The initial state: all inputs empty, all results absent, all loading
flags false, and the selected language initialised to "python". -/
def initialState : AppState :=
  { topic := ""
    curriculum := none
    topicLoading := false
    concept := ""
    lesson := none
    lessonLoading := false
    code := ""
    stdin := ""
    feedback := none
    feedbackLoading := false
    languages := []
    languagesLoading := false
    languageError := none
    selectedLanguage := "python"
    executionLoading := false
    executionResult := none }

/-- The first fetched language key, or the empty string (embedding the
falsy `undefined` of `langs[0]?.key`) when the list is empty. -/
def headKey : List Lang → String
  | [] => ""
  | l :: _ => l.key

/-- The functional updater passed to `setSelectedLanguage` after the
languages fetch resolves (App.jsx lines 122-127):
keep `current` when it is truthy and its key occurs in `langs`; otherwise
`langs[0]?.key || current || "python"`. -/
def selectUpdate (current : String) (langs : List Lang) : String :=
  if current ≠ "" ∧ langs.any (fun l => l.key == current) = true then
    current
  else
    jsOrStr (jsOrStr (headKey langs) current) "python"

/-- The synchronous prefix of `fetchLanguages` before the await:
`setLanguagesLoading(true)`. -/
def fetchLanguagesStart (s : AppState) : AppState :=
  { s with languagesLoading := true }

/-- The fixed message stored when the languages fetch rejects. -/
def languagesErrorMsg : String :=
  "Unable to load Judge0 languages. Check your backend connection."

/-- Continuation of `fetchLanguages` when `listLanguages()` resolves, with
the session-scoped `cancelled` flag read at that moment. `data` is the
optional `languages` field of the response body (`res.data?.languages`,
`none` embedding `undefined`). When not cancelled: store the languages,
re-evaluate the selection once via `selectUpdate`, clear the language
error, and (in the `finally` block, still guarded by `cancelled`) clear the
loading flag. When cancelled: return before any state write. -/
def fetchLanguagesResolve (cancelled : Bool) (data : Option (List Lang))
    (s : AppState) : AppState :=
  if cancelled then s
  else
    let langs := data.getD []
    { s with
      languages := langs
      selectedLanguage := selectUpdate s.selectedLanguage langs
      languageError := none
      languagesLoading := false }

/-- Continuation of `fetchLanguages` when `listLanguages()` rejects: when
not cancelled, store the fixed error message and clear the loading flag;
when cancelled, return before any state write. -/
def fetchLanguagesReject (cancelled : Bool) (s : AppState) : AppState :=
  if cancelled then s
  else
    { s with
      languageError := some languagesErrorMsg
      languagesLoading := false }

/-- The user changing the language through the select element:
`setSelectedLanguage(e.target.value)` with no re-evaluation. -/
def userSelectLanguage (k : String) (s : AppState) : AppState :=
  { s with selectedLanguage := k }

/-- A rejected promise from axios as observed by `handleRun`:
the optional backend-supplied `err.response.data.error` field and the
optional transport `err.message`. `none` embeds `undefined`; `some ""`
embeds a present but falsy empty string. -/
structure JsError where
  responseDataError : Option String
  message : Option String

/-- The fixed fallback string of `handleRun`. -/
def runFallbackMsg : String := "Execution failed. Please try again."

/-- The display message `handleRun` stores on rejection (App.jsx lines
205-206): backend error field, else transport message, else a fixed
fallback, combined with JavaScript truthy-or. -/
def normalizeRunError (e : JsError) : String :=
  jsOrStr (jsOrStr (e.responseDataError.getD "") (e.message.getD ""))
    runFallbackMsg

/-- Blankness of an input, embedding the JavaScript guard `!x.trim()`:
true exactly when every character is whitespace, i.e. when `x.trim()` is
the empty (falsy) string. -/
def isBlank (s : String) : Bool := s.data.all Char.isWhitespace

/-- Synchronous prefix of `handleGenerate` after the guard:
`setTopicLoading(true)`; the previous curriculum is left in place. -/
def generateStart (s : AppState) : AppState :=
  { s with topicLoading := true }

/-- Entry of `handleGenerate`: return without any effect when
`topic.trim()` is empty, otherwise set the loading flag and issue the API
call. The Bool records whether the call was issued. -/
def handleGenerate (s : AppState) : AppState × Bool :=
  if isBlank s.topic then (s, false) else (generateStart s, true)

/-- Continuation of `handleGenerate` on resolve:
`setCurriculum(res.data.curriculum || res.data)`, then the finally block
clears the loading flag. -/
def generateResolve (d : Json) (s : AppState) : AppState :=
  { s with
    curriculum := some (jsOrJson (d.getField "curriculum") d)
    topicLoading := false }

/-- Continuation of `handleGenerate` on reject: store the fixed object
`{error: "failed to fetch"}` — the rejection value itself is only logged —
then clear the loading flag. -/
def generateReject (s : AppState) : AppState :=
  { s with
    curriculum := some (.obj [("error", .str "failed to fetch")])
    topicLoading := false }

/-- Synchronous prefix of `handleExplain` after the guard. -/
def explainStart (s : AppState) : AppState :=
  { s with lessonLoading := true }

/-- Entry of `handleExplain`: guard on `concept.trim()`. -/
def handleExplain (s : AppState) : AppState × Bool :=
  if isBlank s.concept then (s, false) else (explainStart s, true)

/-- Continuation of `handleExplain` on resolve: `setLesson(res.data)`. -/
def explainResolve (d : Json) (s : AppState) : AppState :=
  { s with lesson := some d, lessonLoading := false }

/-- Continuation of `handleExplain` on reject. -/
def explainReject (s : AppState) : AppState :=
  { s with
    lesson := some (.obj [("error", .str "failed to fetch")])
    lessonLoading := false }

/-- Synchronous prefix of `handleFeedback` after the guard. -/
def feedbackStart (s : AppState) : AppState :=
  { s with feedbackLoading := true }

/-- Entry of `handleFeedback`: guard on `code.trim()`. -/
def handleFeedback (s : AppState) : AppState × Bool :=
  if isBlank s.code then (s, false) else (feedbackStart s, true)

/-- Continuation of `handleFeedback` on resolve:
`setFeedback(res.data.feedback || res.data)`. -/
def feedbackResolve (d : Json) (s : AppState) : AppState :=
  { s with
    feedback := some (jsOrJson (d.getField "feedback") d)
    feedbackLoading := false }

/-- Continuation of `handleFeedback` on reject. -/
def feedbackReject (s : AppState) : AppState :=
  { s with
    feedback := some (.obj [("error", .str "failed to fetch")])
    feedbackLoading := false }

/-- Synchronous prefix of `handleRun` after the guard:
`setExecutionLoading(true); setExecutionResult(null)` — run is the one
operation that clears its previous result before the call. -/
def runStart (s : AppState) : AppState :=
  { s with executionLoading := true, executionResult := none }

/-- Entry of `handleRun`: guard on `code.trim()`. -/
def handleRun (s : AppState) : AppState × Bool :=
  if isBlank s.code then (s, false) else (runStart s, true)

/-- The request `handleRun` issues: `runCode` with body
`{language: selectedLanguage, source_code: code, stdin}`. -/
def runRequest (s : AppState) : Request :=
  runCode (.obj
    [("language", .str s.selectedLanguage),
     ("source_code", .str s.code),
     ("stdin", .str s.stdin)])

/-- Continuation of `handleRun` on resolve: `setExecutionResult(res.data)`
verbatim, then clear the loading flag. -/
def runResolve (d : Json) (s : AppState) : AppState :=
  { s with executionResult := some d, executionLoading := false }

/-- Continuation of `handleRun` on reject: store
`{error: normalizeRunError err}`, then clear the loading flag. -/
def runReject (e : JsError) (s : AppState) : AppState :=
  { s with
    executionResult := some (.obj [("error", .str (normalizeRunError e))])
    executionLoading := false }

/-- Click on a `PrimaryButton`: the button is disabled (the click handler
does not fire) when `disabled || loading`; otherwise the handler runs. -/
def primaryButtonClick (disabled loading : Bool)
    (handler : AppState → AppState × Bool) (s : AppState) : AppState × Bool :=
  if disabled || loading then (s, false) else handler s

/-- Click on the Generate button: `disabled={!topic.trim()}`,
`loading={topicLoading}`, `onClick={handleGenerate}`. -/
def clickGenerate (s : AppState) : AppState × Bool :=
  primaryButtonClick (isBlank s.topic) s.topicLoading handleGenerate s

/-- Click on the Explain button. -/
def clickExplain (s : AppState) : AppState × Bool :=
  primaryButtonClick (isBlank s.concept) s.lessonLoading handleExplain s

/-- Click on the Get Feedback button: `disabled={!code.trim()}`. -/
def clickFeedback (s : AppState) : AppState × Bool :=
  primaryButtonClick (isBlank s.code) s.feedbackLoading handleFeedback s

/-- Click on the Run with Judge0 button: `disabled={!code.trim()}`. -/
def clickRun (s : AppState) : AppState × Bool :=
  primaryButtonClick (isBlank s.code) s.executionLoading handleRun s

/-- The in-session user triggers of the component: the four rendered
buttons. The languages fetch is triggered only once, by the mount effect
(`useEffect` with empty dependency array), and has no in-session trigger. -/
inductive UserTrigger where
  | generate : UserTrigger
  | explain : UserTrigger
  | feedback : UserTrigger
  | run : UserTrigger

/-- Dispatch a user trigger to its button click. -/
def fireTrigger : UserTrigger → AppState → AppState × Bool
  | .generate => clickGenerate
  | .explain => clickExplain
  | .feedback => clickFeedback
  | .run => clickRun

/-- The loading flag of the operation a trigger belongs to. -/
def triggerLoading : UserTrigger → AppState → Bool
  | .generate => AppState.topicLoading
  | .explain => AppState.lessonLoading
  | .feedback => AppState.feedbackLoading
  | .run => AppState.executionLoading

/-- The text input guarding a trigger (`topic`, `concept`, or `code`). -/
def triggerInput : UserTrigger → AppState → String
  | .generate => AppState.topic
  | .explain => AppState.concept
  | .feedback => AppState.code
  | .run => AppState.code

/-- C4: if the component is torn down while the languages fetch is in
flight, the fetch's eventual resolution or rejection performs no state
write at all — with the cancelled flag set, both continuations return the
state unchanged (so languages, selectedLanguage, languageError and
languagesLoading are all untouched). -/
theorem spec_c4_cancelled_no_write :
    (∀ (data : Option (List Lang)) (s : AppState),
      fetchLanguagesResolve true data s = s) ∧
    (∀ s : AppState, fetchLanguagesReject true s = s) :=
  ⟨fun _ _ => rfl, fun _ => rfl⟩

/-- C6: for every blank or whitespace-only input, triggering the
corresponding operation — whether through the button (which is disabled)
or the handler itself (which returns at the guard) — performs no API call
and leaves the entire state unchanged. -/
theorem spec_c6_blank_input_noop (s : AppState) :
    (isBlank s.topic = true →
      handleGenerate s = (s, false) ∧ clickGenerate s = (s, false)) ∧
    (isBlank s.concept = true →
      handleExplain s = (s, false) ∧ clickExplain s = (s, false)) ∧
    (isBlank s.code = true →
      handleFeedback s = (s, false) ∧ clickFeedback s = (s, false) ∧
      handleRun s = (s, false) ∧ clickRun s = (s, false)) := by
  refine ⟨fun h => ?_, fun h => ?_, fun h => ?_⟩ <;>
    simp [handleGenerate, clickGenerate, handleExplain, clickExplain,
      handleFeedback, clickFeedback, handleRun, clickRun,
      primaryButtonClick, h]

/-- Witness for C6 at a concrete whitespace-only state: all four
operations are no-ops that issue no API call. -/
theorem spec_c6_blank_input_noop_witness :
    handleGenerate { initialState with topic := "  ", concept := " ", code := "\t" } =
      ({ initialState with topic := "  ", concept := " ", code := "\t" }, false) ∧
    clickGenerate { initialState with topic := "  ", concept := " ", code := "\t" } =
      ({ initialState with topic := "  ", concept := " ", code := "\t" }, false) ∧
    handleExplain { initialState with topic := "  ", concept := " ", code := "\t" } =
      ({ initialState with topic := "  ", concept := " ", code := "\t" }, false) ∧
    clickExplain { initialState with topic := "  ", concept := " ", code := "\t" } =
      ({ initialState with topic := "  ", concept := " ", code := "\t" }, false) ∧
    handleFeedback { initialState with topic := "  ", concept := " ", code := "\t" } =
      ({ initialState with topic := "  ", concept := " ", code := "\t" }, false) ∧
    clickFeedback { initialState with topic := "  ", concept := " ", code := "\t" } =
      ({ initialState with topic := "  ", concept := " ", code := "\t" }, false) ∧
    handleRun { initialState with topic := "  ", concept := " ", code := "\t" } =
      ({ initialState with topic := "  ", concept := " ", code := "\t" }, false) ∧
    clickRun { initialState with topic := "  ", concept := " ", code := "\t" } =
      ({ initialState with topic := "  ", concept := " ", code := "\t" }, false) := by
  have h := spec_c6_blank_input_noop
    { initialState with topic := "  ", concept := " ", code := "\t" }
  exact ⟨(h.1 (by decide)).1, (h.1 (by decide)).2,
    (h.2.1 (by decide)).1, (h.2.1 (by decide)).2,
    (h.2.2 (by decide)).1, (h.2.2 (by decide)).2.1,
    (h.2.2 (by decide)).2.2.1, (h.2.2 (by decide)).2.2.2⟩

/-- C2: while an operation's loading flag is true, firing that operation's
in-session trigger again performs no additional API Client call and leaves
the state unchanged (the button is disabled, so the handler never runs).
The fifth operation, the languages fetch, runs once from the mount effect
and has no in-session trigger at all. -/
theorem spec_c2_loading_guard (t : UserTrigger) (s : AppState)
    (h : triggerLoading t s = true) : fireTrigger t s = (s, false) := by
  cases t <;>
    simp_all [fireTrigger, triggerLoading, clickGenerate, clickExplain,
      clickFeedback, clickRun, primaryButtonClick]

/-- Witness for C2: with a non-blank topic but the curriculum operation
already loading, clicking Generate again does nothing. -/
theorem spec_c2_loading_guard_witness :
    fireTrigger .generate { initialState with topic := "graphs", topicLoading := true } =
      ({ initialState with topic := "graphs", topicLoading := true }, false) :=
  spec_c2_loading_guard .generate
    { initialState with topic := "graphs", topicLoading := true } rfl

/-- C7: each API Client operation issues exactly the specified HTTP
request against the configured base address: generateCurriculum POSTs
{topic} to curriculum/, generateLesson POSTs {concept} to lesson/,
getFeedback POSTs {code} to feedback/, listLanguages GETs execute/, and
handleRun POSTs {language, source_code, stdin} to execute/. -/
theorem spec_c7_api_requests :
    (∀ t, generateCurriculum t =
      ⟨.post, "http://127.0.0.1:8000/api/curriculum/",
        some (.obj [("topic", .str t)])⟩) ∧
    (∀ c, generateLesson c =
      ⟨.post, "http://127.0.0.1:8000/api/lesson/",
        some (.obj [("concept", .str c)])⟩) ∧
    (∀ c, getFeedback c =
      ⟨.post, "http://127.0.0.1:8000/api/feedback/",
        some (.obj [("code", .str c)])⟩) ∧
    listLanguages = ⟨.get, "http://127.0.0.1:8000/api/execute/", none⟩ ∧
    (∀ s : AppState, runRequest s =
      ⟨.post, "http://127.0.0.1:8000/api/execute/",
        some (.obj [("language", .str s.selectedLanguage),
          ("source_code", .str s.code), ("stdin", .str s.stdin)])⟩) :=
  ⟨fun _ => rfl, fun _ => rfl, fun _ => rfl, rfl, fun _ => rfl⟩

/-- C9: when a runCode call resolves, the controller stores the response
body verbatim as the execution result — in general, and in particular for
the body {status:{id:3}, stdout:"hi\n"}. -/
theorem spec_c9_run_result_verbatim :
    (∀ (d : Json) (s : AppState), (runResolve d s).executionResult = some d) ∧
    (runResolve (.obj [("status", .obj [("id", .num 3)]), ("stdout", .str "hi\n")])
        (runStart initialState)).executionResult =
      some (.obj [("status", .obj [("id", .num 3)]), ("stdout", .str "hi\n")]) :=
  ⟨fun _ _ => rfl, rfl⟩

/-- C10: the fixed default language key is "python" — it is the initial
selection before any fetch resolves, and the value the selection falls
back to when the fetched set is empty (or the languages field absent) and
the previous selection is the empty string. -/
theorem spec_c10_default_python :
    initialState.selectedLanguage = "python" ∧
    (fetchLanguagesResolve false (some [])
      { initialState with selectedLanguage := "" }).selectedLanguage = "python" ∧
    (fetchLanguagesResolve false none
      { initialState with selectedLanguage := "" }).selectedLanguage = "python" ∧
    selectUpdate "" [] = "python" :=
  ⟨rfl, by decide, by decide, by decide⟩

/-- The Boolean membership test of the updater agrees with list
membership of the current key among the fetched keys. -/
lemma any_key_eq_mem (current : String) (langs : List Lang) :
    (langs.any (fun l => l.key == current) = true) ↔
      current ∈ langs.map Lang.key := by
  simp [List.any_eq_true, List.mem_map]

/-- A nonempty first key is one of the fetched keys. -/
lemma headKey_mem (langs : List Lang) (hh : headKey langs ≠ "") :
    headKey langs ∈ langs.map Lang.key := by
  cases langs with
  | nil => simp [headKey] at hh
  | cons l rest => simp [headKey]

/-- The selection re-evaluation, stated the way the amended claim reads:
keep a nonempty current key that is among the fetched keys; otherwise take
the first fetched key when it is nonempty; otherwise keep a nonempty
current key even though it is not in the fetched set; otherwise the fixed
default "python". -/
def selectAmended (current : String) (langs : List Lang) : String :=
  if current ≠ "" ∧ current ∈ langs.map Lang.key then current
  else if headKey langs ≠ "" then headKey langs
  else if current ≠ "" then current
  else "python"

/-- The code's updater coincides with the amended description. -/
lemma selectUpdate_eq_selectAmended (current : String) (langs : List Lang) :
    selectUpdate current langs = selectAmended current langs := by
  by_cases hc : current = ""
  · by_cases hh : headKey langs = "" <;>
      simp [selectUpdate, selectAmended, jsOrStr, hc, hh]
  · by_cases hm : current ∈ langs.map Lang.key
    · have ha := (any_key_eq_mem current langs).mpr hm
      simp [selectUpdate, selectAmended, hc, hm, ha]
    · have ha : langs.any (fun l => l.key == current) = false := by
        rcases Bool.eq_false_or_eq_true (langs.any (fun l => l.key == current)) with h | h
        · exact absurd ((any_key_eq_mem current langs).mp h) hm
        · exact h
      by_cases hh : headKey langs = "" <;>
        simp [selectUpdate, selectAmended, jsOrStr, hc, hm, ha, hh]

/-- C1 counterexample: with the selection "ruby" and an empty fetched set,
the resolution keeps "ruby" — not the fixed default "python" the claim
requires for an empty set — and the resulting selection is not a member of
the (empty) last-fetched set. -/
theorem spec_c1_counterexample :
    (fetchLanguagesResolve false (some [])
      { initialState with selectedLanguage := "ruby" }).selectedLanguage = "ruby" ∧
    (fetchLanguagesResolve false (some [])
      { initialState with selectedLanguage := "ruby" }).languages = [] ∧
    ("ruby" : String) ≠ "python" ∧
    ("ruby" : String) ∉ ([] : List Lang).map Lang.key := by
  refine ⟨by decide, rfl, by decide, by simp⟩

/-- C1 amended: after each resolution of the languages fetch the selection
is re-evaluated exactly once, by one application of selectUpdate, which
coincides with selectAmended: a nonempty selected key present in the
returned set is kept; otherwise the first returned key is taken when it is
nonempty; otherwise a nonempty current selection is kept even when the
returned set is empty; otherwise the fixed default "python". Whenever the
first returned key is nonempty, the resulting selection is a member of the
returned set; and a manual user selection is stored as given, with no
re-evaluation. -/
theorem spec_c1_amended_selection (s : AppState) (langs : List Lang) (k : String) :
    (fetchLanguagesResolve false (some langs) s).selectedLanguage =
      selectAmended s.selectedLanguage langs ∧
    (fetchLanguagesResolve false (some langs) s).languages = langs ∧
    (headKey langs ≠ "" →
      (fetchLanguagesResolve false (some langs) s).selectedLanguage ∈
        langs.map Lang.key) ∧
    (userSelectLanguage k s).selectedLanguage = k := by
  have heq : (fetchLanguagesResolve false (some langs) s).selectedLanguage =
      selectUpdate s.selectedLanguage langs := rfl
  refine ⟨heq.trans (selectUpdate_eq_selectAmended _ _), rfl, ?_, rfl⟩
  intro hh
  rw [heq.trans (selectUpdate_eq_selectAmended _ _)]
  by_cases hm : s.selectedLanguage ≠ "" ∧ s.selectedLanguage ∈ langs.map Lang.key
  · rw [selectAmended, if_pos hm]
    exact hm.2
  · rw [selectAmended, if_neg hm, if_pos hh]
    exact headKey_mem langs hh

/-- Witness for C1 amended: with selection "ruby" and fetched languages
python and js, the re-evaluated selection is a member of the fetched key
set (it becomes "python", the first entry). -/
theorem spec_c1_amended_selection_witness :
    (fetchLanguagesResolve false
      (some [⟨"python", "Python", "python"⟩, ⟨"js", "JavaScript", "javascript"⟩])
      { initialState with selectedLanguage := "ruby" }).selectedLanguage ∈
      ([⟨"python", "Python", "python"⟩,
        ⟨"js", "JavaScript", "javascript"⟩] : List Lang).map Lang.key :=
  (spec_c1_amended_selection { initialState with selectedLanguage := "ruby" }
    [⟨"python", "Python", "python"⟩, ⟨"js", "JavaScript", "javascript"⟩]
    "ruby").2.2.1 (by decide)

/-- JavaScript truthy-or with a nonempty right operand never yields the
empty string. -/
lemma jsOrStr_ne_empty (a b : String) (hb : b ≠ "") : jsOrStr a b ≠ "" := by
  unfold jsOrStr
  split
  · exact hb
  · assumption

/-- C3 counterexample: the curriculum operation ignores the rejection
value entirely — even when the backend supplied an error field
("quota exceeded"), the stored message is the fixed "failed to fetch",
which differs from what the preference chain would choose. So the
preference chain does not apply to every one of the five operations. -/
theorem spec_c3_counterexample :
    (generateReject (generateStart
      { initialState with topic := "sorting" })).curriculum =
      some (.obj [("error", .str "failed to fetch")]) ∧
    normalizeRunError ⟨some "quota exceeded", some "Request failed"⟩ =
      "quota exceeded" ∧
    ("failed to fetch" : String) ≠ "quota exceeded" :=
  ⟨rfl, by decide, by decide⟩

/-- C3 amended: every rejected call stores a non-empty message, but the
preference chain (backend error field, then transport message, then the
fixed fallback) is applied only by the run operation; curriculum, lesson
and feedback store the fixed string "failed to fetch", and the languages
fetch stores a fixed connection message. -/
theorem spec_c3_amended_error_messages :
    (∀ e : JsError, normalizeRunError e ≠ "") ∧
    (∀ (e : JsError) (s : AppState),
      (runReject e s).executionResult =
        some (.obj [("error", .str (normalizeRunError e))])) ∧
    (∀ (e : JsError) (b : String),
      e.responseDataError = some b → b ≠ "" → normalizeRunError e = b) ∧
    (∀ (e : JsError) (m : String),
      (e.responseDataError = none ∨ e.responseDataError = some "") →
      e.message = some m → m ≠ "" → normalizeRunError e = m) ∧
    (∀ e : JsError,
      (e.responseDataError = none ∨ e.responseDataError = some "") →
      (e.message = none ∨ e.message = some "") →
      normalizeRunError e = runFallbackMsg) ∧
    (∀ s, (generateReject s).curriculum =
      some (.obj [("error", .str "failed to fetch")])) ∧
    (∀ s, (explainReject s).lesson =
      some (.obj [("error", .str "failed to fetch")])) ∧
    (∀ s, (feedbackReject s).feedback =
      some (.obj [("error", .str "failed to fetch")])) ∧
    (∀ s, (fetchLanguagesReject false s).languageError =
      some languagesErrorMsg) ∧
    ("failed to fetch" : String) ≠ "" ∧ languagesErrorMsg ≠ "" := by
  refine ⟨?_, fun _ _ => rfl, ?_, ?_, ?_, fun _ => rfl, fun _ => rfl,
    fun _ => rfl, fun _ => rfl, by decide, by decide⟩
  · intro e
    exact jsOrStr_ne_empty _ _ (by decide)
  · intro e b hb hne
    simp [normalizeRunError, jsOrStr, hb, hne]
  · intro e m hb hm hne
    rcases hb with hb | hb <;> simp [normalizeRunError, jsOrStr, hb, hm, hne]
  · intro e hb hm
    rcases hb with hb | hb <;> rcases hm with hm | hm <;>
      simp [normalizeRunError, jsOrStr, hb, hm]

/-- Witness for C3 amended: a rejection with no backend error field and
transport message "Network Error" stores that message; one with neither
stores the fixed fallback. -/
theorem spec_c3_amended_error_messages_witness :
    normalizeRunError ⟨none, some "Network Error"⟩ = "Network Error" ∧
    normalizeRunError ⟨none, none⟩ = runFallbackMsg :=
  ⟨spec_c3_amended_error_messages.2.2.2.1 ⟨none, some "Network Error"⟩
      "Network Error" (Or.inl rfl) rfl (by decide),
    spec_c3_amended_error_messages.2.2.2.2.1 ⟨none, none⟩
      (Or.inl rfl) (Or.inl rfl)⟩

/-- C5 counterexample: triggering Generate with a non-blank topic while a
previous error object is stored issues the API call and sets the loading
flag, but does not clear the previous error — the curriculum field still
holds the old error object while the call is in flight, contradicting the
claimed "set loading=true, clear error" pre-call step. -/
theorem spec_c5_counterexample :
    (clickGenerate { initialState with
        topic := "recursion",
        curriculum := some (.obj [("error", .str "failed to fetch")]) }).2 = true ∧
    (clickGenerate { initialState with
        topic := "recursion",
        curriculum := some (.obj [("error", .str "failed to fetch")]) }).1.topicLoading = true ∧
    (clickGenerate { initialState with
        topic := "recursion",
        curriculum := some (.obj [("error", .str "failed to fetch")]) }).1.curriculum
      = some (.obj [("error", .str "failed to fetch")]) :=
  ⟨rfl, rfl, rfl⟩

/-- C5 amended: on trigger with non-blank input and loading false, each
operation sets its loading flag before invoking the API Client, but only
the run operation clears its previous result/error at that point — the
other operations leave the previous result or error in place until
completion; and on completion, resolve or reject, each operation stores
the result or the error message and sets its loading flag to false. -/
theorem spec_c5_amended_transition (s : AppState) (d : Json) (e : JsError) :
    (isBlank s.topic = false → s.topicLoading = false →
      clickGenerate s = ({ s with topicLoading := true }, true)) ∧
    (isBlank s.concept = false → s.lessonLoading = false →
      clickExplain s = ({ s with lessonLoading := true }, true)) ∧
    (isBlank s.code = false → s.feedbackLoading = false →
      clickFeedback s = ({ s with feedbackLoading := true }, true)) ∧
    (isBlank s.code = false → s.executionLoading = false →
      clickRun s = ({ s with
        executionLoading := true, executionResult := none }, true)) ∧
    (generateStart s).curriculum = s.curriculum ∧
    (explainStart s).lesson = s.lesson ∧
    (feedbackStart s).feedback = s.feedback ∧
    (runStart s).executionResult = none ∧
    (fetchLanguagesStart s).languagesLoading = true ∧
    (fetchLanguagesStart s).languageError = s.languageError ∧
    ((generateResolve d s).curriculum =
        some (jsOrJson (d.getField "curriculum") d) ∧
      (generateResolve d s).topicLoading = false) ∧
    ((generateReject s).curriculum =
        some (.obj [("error", .str "failed to fetch")]) ∧
      (generateReject s).topicLoading = false) ∧
    ((explainResolve d s).lesson = some d ∧
      (explainResolve d s).lessonLoading = false) ∧
    ((explainReject s).lesson =
        some (.obj [("error", .str "failed to fetch")]) ∧
      (explainReject s).lessonLoading = false) ∧
    ((feedbackResolve d s).feedback =
        some (jsOrJson (d.getField "feedback") d) ∧
      (feedbackResolve d s).feedbackLoading = false) ∧
    ((feedbackReject s).feedback =
        some (.obj [("error", .str "failed to fetch")]) ∧
      (feedbackReject s).feedbackLoading = false) ∧
    ((runResolve d s).executionResult = some d ∧
      (runResolve d s).executionLoading = false) ∧
    ((runReject e s).executionResult =
        some (.obj [("error", .str (normalizeRunError e))]) ∧
      (runReject e s).executionLoading = false) ∧
    (∀ langs, (fetchLanguagesResolve false (some langs) s).languagesLoading
      = false) ∧
    ((fetchLanguagesReject false s).languageError = some languagesErrorMsg ∧
      (fetchLanguagesReject false s).languagesLoading = false) := by
  refine ⟨fun hb hl => ?_, fun hb hl => ?_, fun hb hl => ?_, fun hb hl => ?_,
    rfl, rfl, rfl, rfl, rfl, rfl, ⟨rfl, rfl⟩, ⟨rfl, rfl⟩, ⟨rfl, rfl⟩,
    ⟨rfl, rfl⟩, ⟨rfl, rfl⟩, ⟨rfl, rfl⟩, ⟨rfl, rfl⟩, ⟨rfl, rfl⟩,
    fun _ => rfl, ⟨rfl, rfl⟩⟩ <;>
  simp [clickGenerate, clickExplain, clickFeedback, clickRun,
    primaryButtonClick, handleGenerate, handleExplain, handleFeedback,
    handleRun, generateStart, explainStart, feedbackStart, runStart,
    hb, hl]

/-- Witness for C5 amended at concrete states: Generate with topic "x"
and Run with code "print(1)" both set their loading flag and issue the
call (Run also clearing the previous execution result). -/
theorem spec_c5_amended_transition_witness :
    clickGenerate { initialState with topic := "x" } =
      ({ initialState with topic := "x", topicLoading := true }, true) ∧
    clickRun { initialState with code := "print(1)" } =
      ({ initialState with
        code := "print(1)", executionLoading := true,
        executionResult := none }, true) :=
  ⟨(spec_c5_amended_transition { initialState with topic := "x" }
      .null ⟨none, none⟩).1 (by decide) rfl,
    (spec_c5_amended_transition { initialState with code := "print(1)" }
      .null ⟨none, none⟩).2.2.2.1 (by decide) rfl⟩

/-- C8: a failure of any one operation only replaces that operation's own
result region with an error message; every other field of the state —
the other operations' results, errors, loading flags, the inputs and the
selected language — is unchanged, and each rejection continuation is a
total state transformer, so no failure propagates further. -/
theorem spec_c8_failure_isolation (s : AppState) (e : JsError) :
    ((generateReject s).curriculum =
        some (.obj [("error", .str "failed to fetch")]) ∧
      (generateReject s).topic = s.topic ∧
      (generateReject s).concept = s.concept ∧
      (generateReject s).lesson = s.lesson ∧
      (generateReject s).lessonLoading = s.lessonLoading ∧
      (generateReject s).code = s.code ∧
      (generateReject s).stdin = s.stdin ∧
      (generateReject s).feedback = s.feedback ∧
      (generateReject s).feedbackLoading = s.feedbackLoading ∧
      (generateReject s).languages = s.languages ∧
      (generateReject s).languagesLoading = s.languagesLoading ∧
      (generateReject s).languageError = s.languageError ∧
      (generateReject s).selectedLanguage = s.selectedLanguage ∧
      (generateReject s).executionLoading = s.executionLoading ∧
      (generateReject s).executionResult = s.executionResult) ∧
    ((explainReject s).lesson =
        some (.obj [("error", .str "failed to fetch")]) ∧
      (explainReject s).topic = s.topic ∧
      (explainReject s).curriculum = s.curriculum ∧
      (explainReject s).topicLoading = s.topicLoading ∧
      (explainReject s).concept = s.concept ∧
      (explainReject s).code = s.code ∧
      (explainReject s).stdin = s.stdin ∧
      (explainReject s).feedback = s.feedback ∧
      (explainReject s).feedbackLoading = s.feedbackLoading ∧
      (explainReject s).languages = s.languages ∧
      (explainReject s).languagesLoading = s.languagesLoading ∧
      (explainReject s).languageError = s.languageError ∧
      (explainReject s).selectedLanguage = s.selectedLanguage ∧
      (explainReject s).executionLoading = s.executionLoading ∧
      (explainReject s).executionResult = s.executionResult) ∧
    ((feedbackReject s).feedback =
        some (.obj [("error", .str "failed to fetch")]) ∧
      (feedbackReject s).topic = s.topic ∧
      (feedbackReject s).curriculum = s.curriculum ∧
      (feedbackReject s).topicLoading = s.topicLoading ∧
      (feedbackReject s).concept = s.concept ∧
      (feedbackReject s).lesson = s.lesson ∧
      (feedbackReject s).lessonLoading = s.lessonLoading ∧
      (feedbackReject s).code = s.code ∧
      (feedbackReject s).stdin = s.stdin ∧
      (feedbackReject s).languages = s.languages ∧
      (feedbackReject s).languagesLoading = s.languagesLoading ∧
      (feedbackReject s).languageError = s.languageError ∧
      (feedbackReject s).selectedLanguage = s.selectedLanguage ∧
      (feedbackReject s).executionLoading = s.executionLoading ∧
      (feedbackReject s).executionResult = s.executionResult) ∧
    ((runReject e s).executionResult =
        some (.obj [("error", .str (normalizeRunError e))]) ∧
      (runReject e s).topic = s.topic ∧
      (runReject e s).curriculum = s.curriculum ∧
      (runReject e s).topicLoading = s.topicLoading ∧
      (runReject e s).concept = s.concept ∧
      (runReject e s).lesson = s.lesson ∧
      (runReject e s).lessonLoading = s.lessonLoading ∧
      (runReject e s).code = s.code ∧
      (runReject e s).stdin = s.stdin ∧
      (runReject e s).feedback = s.feedback ∧
      (runReject e s).feedbackLoading = s.feedbackLoading ∧
      (runReject e s).languages = s.languages ∧
      (runReject e s).languagesLoading = s.languagesLoading ∧
      (runReject e s).languageError = s.languageError ∧
      (runReject e s).selectedLanguage = s.selectedLanguage) ∧
    ((fetchLanguagesReject false s).languageError = some languagesErrorMsg ∧
      (fetchLanguagesReject false s).topic = s.topic ∧
      (fetchLanguagesReject false s).curriculum = s.curriculum ∧
      (fetchLanguagesReject false s).topicLoading = s.topicLoading ∧
      (fetchLanguagesReject false s).concept = s.concept ∧
      (fetchLanguagesReject false s).lesson = s.lesson ∧
      (fetchLanguagesReject false s).lessonLoading = s.lessonLoading ∧
      (fetchLanguagesReject false s).code = s.code ∧
      (fetchLanguagesReject false s).stdin = s.stdin ∧
      (fetchLanguagesReject false s).feedback = s.feedback ∧
      (fetchLanguagesReject false s).feedbackLoading = s.feedbackLoading ∧
      (fetchLanguagesReject false s).languages = s.languages ∧
      (fetchLanguagesReject false s).selectedLanguage = s.selectedLanguage ∧
      (fetchLanguagesReject false s).executionLoading = s.executionLoading ∧
      (fetchLanguagesReject false s).executionResult = s.executionResult) := by
  refine ⟨⟨rfl, ?_⟩, ⟨rfl, ?_⟩, ⟨rfl, ?_⟩, ⟨rfl, ?_⟩, ⟨rfl, ?_⟩⟩ <;>
    simp [generateReject, explainReject, feedbackReject, runReject,
      fetchLanguagesReject]
